import Mathlib

/-!
Verification of the wayfare simulation core.

This file gives a shallow embedding, in Lean, of the algorithmic core of the
wayfare 2D tile game: the tile grid (`TileMap`), the deterministic tile-variant
hash (`TileVariants.hash2D`), the jump physics integrator (`JumpPhysics`), the
jump state machine (`JumpState`), the landing-position search (`LandingAssist`),
the player movement/collision resolution (`Player`), and the Tiled map
converter (`TiledConverter`).  JavaScript numbers are modelled as exact
rationals (`ℚ`) except where a claim is specifically about bit-level
reproducibility, in which case IEEE-754 double rounding of integer values is
modelled explicitly (`roundDouble`).  JavaScript exceptions are modelled with
`Except String`; `undefined` results with `Option`.
-/

namespace Wayfare

/-! ## Tiles and tile maps (src/world/map/Tile.ts, TileLayer.ts, TileMap.ts) -/

/-- Tile identifiers, from `Tile.ts`: the closed union of tile kinds. -/
inductive TileId where
  | grass | water | log | rock | tree | empty
deriving DecidableEq, Repr

/-- A single tile in the map, from `Tile.ts` (`id` plus optional height). -/
structure Tile where
  id : TileId
  height : Option ℚ := none
deriving DecidableEq, Repr

/-- A named tile layer, from `TileLayer.ts`: name, dimensions, z-index and a
row-major 2D array of tiles. -/
structure TileLayer where
  name : String
  width : ℕ
  height : ℕ
  zIndex : ℤ
  tiles : List (List Tile)
deriving Repr

/-- The tile map, from `TileMap.ts`: dimensions in tiles, tile edge length in
pixels, the layers keyed by name (a JS `Map`, modelled as an association list
where the most recent insertion comes first), and the flat collision grid
(`Uint8Array` of size `width * height`). -/
structure TileMap where
  width : ℕ
  height : ℕ
  tileSizePx : ℚ
  layers : List (String × TileLayer)
  collisionGrid : List ℕ
deriving Repr

namespace TileMap

/-- Get a layer by name, from `TileMap.ts` (`getLayer`): a JS `Map.get`, which
returns `undefined` (here `none`) when the name is absent. -/
def getLayer (m : TileMap) (name : String) : Option TileLayer :=
  (m.layers.find? (fun p => p.1 = name)).map (·.2)

/-- Collision query, from `TileMap.ts` (`isBlocked`): out of bounds is
blocked, otherwise consult the collision grid at index `ty * width + tx`. -/
def isBlocked (m : TileMap) (tx ty : ℤ) : Bool :=
  if tx < 0 ∨ (m.width : ℤ) ≤ tx ∨ ty < 0 ∨ (m.height : ℤ) ≤ ty then
    true
  else
    m.collisionGrid.getD (ty * (m.width : ℤ) + tx).toNat 0 != 0

/-- World-pixel position to tile coordinates, from `TileMap.ts`
(`worldToTile`): componentwise `floor(w / tileSizePx)`. -/
def worldToTile (m : TileMap) (worldX worldY : ℚ) : ℤ × ℤ :=
  (⌊worldX / m.tileSizePx⌋, ⌊worldY / m.tileSizePx⌋)

/-- Tile coordinates to the world-pixel center of the tile, from `TileMap.ts`
(`tileToWorld`). -/
def tileToWorld (m : TileMap) (tx ty : ℤ) : ℚ × ℚ :=
  (tx * m.tileSizePx + m.tileSizePx / 2, ty * m.tileSizePx + m.tileSizePx / 2)

end TileMap

/-- A concrete 2×2 tile map with no layers, used as evaluation input. -/
def emptyMap2 : TileMap :=
  { width := 2, height := 2, tileSizePx := 16, layers := [],
    collisionGrid := [0, 1, 0, 0] }

/-- C6: worldToTile inverts tileToWorld on tile centers.  For every map whose
tile edge length is a positive integer and all in-bounds tile coordinates
`(tx, ty)` with `tx, ty ≥ 0`, `worldToTile (tileToWorld tx ty) = (tx, ty)`. -/
theorem worldToTile_tileToWorld (m : TileMap) (tx ty : ℤ)
    (hs : ∃ n : ℕ, 0 < n ∧ m.tileSizePx = (n : ℚ))
    (hx0 : 0 ≤ tx) (hx : tx < (m.width : ℤ))
    (hy0 : 0 ≤ ty) (hy : ty < (m.height : ℤ)) :
    m.worldToTile (m.tileToWorld tx ty).1 (m.tileToWorld tx ty).2 = (tx, ty) := by
  obtain ⟨n, hn, hsz⟩ := hs
  have hszpos : (0 : ℚ) < m.tileSizePx := by
    rw [hsz]; exact_mod_cast hn
  have hne : m.tileSizePx ≠ 0 := ne_of_gt hszpos
  have key : ∀ t : ℤ, ⌊((t : ℚ) * m.tileSizePx + m.tileSizePx / 2) / m.tileSizePx⌋ = t := by
    intro t
    have : ((t : ℚ) * m.tileSizePx + m.tileSizePx / 2) / m.tileSizePx = (t : ℚ) + 1 / 2 := by
      field_simp
      ring
    rw [this]
    have h1 : ((t : ℚ) + 1 / 2) < (t : ℚ) + 1 := by norm_num
    have h2 : (t : ℚ) ≤ (t : ℚ) + 1 / 2 := by norm_num
    rw [Int.floor_eq_iff]
    constructor <;> linarith
  simp only [TileMap.worldToTile, TileMap.tileToWorld]
  rw [key tx, key ty]

/-- Witness for C6 at a concrete map and tile coordinate. -/
theorem worldToTile_tileToWorld_witness :
    emptyMap2.worldToTile (emptyMap2.tileToWorld 1 0).1 (emptyMap2.tileToWorld 1 0).2 = (1, 0) :=
  worldToTile_tileToWorld emptyMap2 1 0 ⟨16, by norm_num, by norm_num [emptyMap2]⟩
    (by norm_num) (by norm_num [emptyMap2]) (by norm_num) (by norm_num [emptyMap2])

/-- C7: isBlocked is true exactly when the position is outside
`[0,width) × [0,height)` or the collision bitmap entry at `ty*width+tx` is
set; in particular every out-of-bounds position is blocked. -/
theorem isBlocked_iff (m : TileMap) (tx ty : ℤ) :
    (m.isBlocked tx ty = true ↔
      (¬ (0 ≤ tx ∧ tx < (m.width : ℤ) ∧ 0 ≤ ty ∧ ty < (m.height : ℤ)) ∨
        m.collisionGrid.getD (ty * (m.width : ℤ) + tx).toNat 0 ≠ 0)) ∧
    (¬ (0 ≤ tx ∧ tx < (m.width : ℤ) ∧ 0 ≤ ty ∧ ty < (m.height : ℤ)) →
      m.isBlocked tx ty = true) := by
  constructor
  · unfold TileMap.isBlocked
    split_ifs with h
    · simp only [true_iff]
      left
      omega
    · push_neg at h
      simp only [bne_iff_ne, ne_eq]
      constructor
      · intro hg
        right
        exact hg
      · intro hg
        rcases hg with hg | hg
        · exfalso
          omega
        · exact hg
  · intro h
    unfold TileMap.isBlocked
    split_ifs with h2
    · rfl
    · exfalso
      push_neg at h2
      apply h
      omega

/-- C8 evaluation: `getLayer` on a map with no layer of the requested name
returns `none` (JS `undefined`); it does not fail with a NotFound error. -/
theorem getLayer_absent_returns_none : emptyMap2.getLayer "ground" = none := rfl

/-! ## Jump phases and physics (src/world/entities/jumping) -/

/-- Jump phases, from `JumpState.ts`. -/
inductive JumpPhase where
  | grounded | rising | falling | landing
deriving DecidableEq, Repr

/-- Configuration of the jump physics calculator, from `JumpPhysics`
(gravity, jumpStrength, maxHeight, hangTimeFactor). -/
structure JumpPhysicsConfig where
  gravity : ℚ
  jumpStrength : ℚ
  maxHeight : ℚ
  hangTimeFactor : ℚ
deriving Repr

/-- Mutable state of the jump physics calculator: height and velocity. -/
structure JumpPhysics where
  height : ℚ
  velocity : ℚ
deriving DecidableEq, Repr

namespace JumpPhysics

/-- Initial physics state: height 0, velocity 0. -/
def init : JumpPhysics := ⟨0, 0⟩

/-- Peak proximity test, from `JumpPhysics.isNearPeak`:
`height ≥ maxHeight * 0.85`. -/
def isNearPeak (cfg : JumpPhysicsConfig) (s : JumpPhysics) : Bool :=
  cfg.maxHeight * (85 / 100) ≤ s.height

/-- Jump initiation, from `JumpPhysics.jump`: set velocity to `-jumpStrength`
(negative is upward). -/
def jump (cfg : JumpPhysicsConfig) (s : JumpPhysics) : JumpPhysics :=
  { s with velocity := -cfg.jumpStrength }

/-- Reset, from `JumpPhysics.reset`. -/
def reset (_s : JumpPhysics) : JumpPhysics := ⟨0, 0⟩

/-- One physics step, from `JumpPhysics.update`: pin to 0 while grounded or
landing; otherwise apply gravity, hang-time damping near the peak, integrate
height, then clamp height into `[0, maxHeight]` zeroing/flooring velocity at
each clamp boundary. -/
def update (cfg : JumpPhysicsConfig) (s : JumpPhysics) (dtSec : ℚ)
    (phase : JumpPhase) : JumpPhysics :=
  if phase = .grounded ∨ phase = .landing then
    ⟨0, 0⟩
  else
    let v1 := s.velocity + cfg.gravity * dtSec
    let v2 := if isNearPeak cfg s ∧ 0 < v1 then v1 * (1 - cfg.hangTimeFactor) else v1
    let h1 := s.height - v2 * dtSec
    -- the source's two sequential clamp blocks, expanded into the four
    -- possible outcomes (ground clamp sets height 0 / velocity 0 first, the
    -- max-height clamp then reads the already-clamped values)
    if h1 < 0 then
      if cfg.maxHeight < 0 then ⟨cfg.maxHeight, 0⟩ else ⟨0, 0⟩
    else
      if cfg.maxHeight < h1 then ⟨cfg.maxHeight, max 0 v2⟩ else ⟨h1, v2⟩

end JumpPhysics

/-- One externally triggerable operation on a `JumpPhysics` instance. -/
inductive JumpPhysicsOp where
  | update (dtSec : ℚ) (phase : JumpPhase)
  | jump
  | reset
deriving Repr

/-- Apply one operation to the physics state. -/
def applyJumpPhysicsOp (cfg : JumpPhysicsConfig) (s : JumpPhysics) :
    JumpPhysicsOp → JumpPhysics
  | .update dtSec phase => JumpPhysics.update cfg s dtSec phase
  | .jump => JumpPhysics.jump cfg s
  | .reset => JumpPhysics.reset s

/-- Run a finite sequence of operations from the initial state. -/
def runJumpPhysics (cfg : JumpPhysicsConfig) (ops : List JumpPhysicsOp) : JumpPhysics :=
  ops.foldl (applyJumpPhysicsOp cfg) JumpPhysics.init

/-- Operation well-formedness per the claim: update steps use `dtSec ≥ 0`. -/
def JumpPhysicsOp.dtNonneg : JumpPhysicsOp → Prop
  | .update dtSec _ => 0 ≤ dtSec
  | _ => True

/-- Height bound is preserved by a single update step, for any previous
state: the step either pins the state to `(0,0)` or clamps the new height
into `[0, maxHeight]`. -/
theorem JumpPhysics.update_height_bounds (cfg : JumpPhysicsConfig)
    (hmax : 0 ≤ cfg.maxHeight) (s : JumpPhysics) (dtSec : ℚ) (phase : JumpPhase) :
    0 ≤ (JumpPhysics.update cfg s dtSec phase).height ∧
      (JumpPhysics.update cfg s dtSec phase).height ≤ cfg.maxHeight := by
  unfold JumpPhysics.update
  dsimp only
  split_ifs <;> dsimp only <;> constructor <;> linarith

/-- C2: starting from the initial state, after any finite sequence of
`update` (with `dtSec ≥ 0`), `jump` and `reset` calls, the stored height of a
`JumpPhysics` instance with non-negative `maxHeight` stays in
`[0, maxHeight]`. -/
theorem jumpPhysics_height_invariant (cfg : JumpPhysicsConfig)
    (ops : List JumpPhysicsOp) (hmax : 0 ≤ cfg.maxHeight)
    (hdt : ∀ op ∈ ops, op.dtNonneg) :
    0 ≤ (runJumpPhysics cfg ops).height ∧
      (runJumpPhysics cfg ops).height ≤ cfg.maxHeight := by
  suffices h : ∀ (s : JumpPhysics), 0 ≤ s.height → s.height ≤ cfg.maxHeight →
      0 ≤ (ops.foldl (applyJumpPhysicsOp cfg) s).height ∧
        (ops.foldl (applyJumpPhysicsOp cfg) s).height ≤ cfg.maxHeight by
    exact h JumpPhysics.init le_rfl hmax
  clear hdt
  induction ops with
  | nil => intro s h0 h1; exact ⟨h0, h1⟩
  | cons op rest ih =>
    intro s h0 h1
    simp only [List.foldl_cons]
    rcases op with ⟨dtSec, phase⟩ | _ | _
    · obtain ⟨g0, g1⟩ := JumpPhysics.update_height_bounds cfg hmax s dtSec phase
      exact ih _ g0 g1
    · exact ih _ h0 h1
    · exact ih _ le_rfl hmax

/-- Default configuration values from the `JumpPhysics` constructor. -/
def defaultJumpPhysicsConfig : JumpPhysicsConfig :=
  { gravity := 800, jumpStrength := 250, maxHeight := 32, hangTimeFactor := 3 / 10 }

/-- A concrete operation sequence: jump, then several frames of updates. -/
def exampleJumpOps : List JumpPhysicsOp :=
  [.jump, .update (1 / 60) .rising, .update (1 / 60) .rising,
   .update (1 / 60) .falling, .reset, .jump, .update (1 / 60) .rising]

/-- Witness for C2 at the default configuration and a concrete call
sequence. -/
theorem jumpPhysics_height_invariant_witness :
    0 ≤ (runJumpPhysics defaultJumpPhysicsConfig exampleJumpOps).height ∧
      (runJumpPhysics defaultJumpPhysicsConfig exampleJumpOps).height ≤
        defaultJumpPhysicsConfig.maxHeight :=
  jumpPhysics_height_invariant defaultJumpPhysicsConfig exampleJumpOps
    (by norm_num [defaultJumpPhysicsConfig])
    (by intro op hop; fin_cases hop <;> simp [JumpPhysicsOp.dtNonneg])

/-! ## Jump state machine (src/world/entities/jumping/JumpState.ts) -/

/-- Mutable state of the jump state machine, from `JumpState.ts`. -/
structure JumpState where
  phase : JumpPhase
  height : ℚ
  velocity : ℚ
  timeSinceGrounded : ℚ
  jumpBufferTimer : ℚ
  landingTimer : ℚ
deriving DecidableEq, Repr

namespace JumpState

/-- Coyote-time window in milliseconds (`coyoteTimeMs`). -/
def coyoteTimeMs : ℚ := 150

/-- Jump input buffering window in milliseconds (`jumpBufferMs`). -/
def jumpBufferMs : ℚ := 100

/-- Duration of the landing phase in milliseconds (`landingDurationMs`). -/
def landingDurationMs : ℚ := 100

/-- Initial state: grounded, all counters zero. -/
def init : JumpState :=
  { phase := .grounded, height := 0, velocity := 0, timeSinceGrounded := 0,
    jumpBufferTimer := 0, landingTimer := 0 }

/-- Enter the landing phase, from `startLanding`. -/
def startLanding (s : JumpState) : JumpState :=
  { s with phase := .landing, landingTimer := landingDurationMs,
           height := 0, velocity := 0 }

/-- Return to the grounded state, from `setGrounded`. -/
def setGrounded (s : JumpState) : JumpState :=
  { s with phase := .grounded, timeSinceGrounded := 0,
           height := 0, velocity := 0 }

/-- One state-machine step, from `JumpState.update`: store the integrator's
height/velocity, advance the timers, then either run the landing countdown
(while in `landing`) or re-derive the phase from height and velocity. -/
def update (s : JumpState) (dtMs height velocity : ℚ) : JumpState :=
  let s1 := { s with height := height, velocity := velocity }
  let s2 :=
    if s1.phase ≠ .grounded then
      { s1 with timeSinceGrounded := s1.timeSinceGrounded + dtMs }
    else s1
  let s3 :=
    if 0 < s2.jumpBufferTimer then
      { s2 with jumpBufferTimer := s2.jumpBufferTimer - dtMs }
    else s2
  if s3.phase = .landing then
    let s4 := { s3 with landingTimer := s3.landingTimer - dtMs }
    if s4.landingTimer ≤ 0 then setGrounded s4 else s4
  else
    if height ≤ 0 then
      if s3.phase ≠ .grounded then startLanding s3 else s3
    else if velocity < 0 then
      { s3 with phase := .rising }
    else
      { s3 with phase := .falling }

/-- Jump initiation, from `startJump`: unconditionally sets the phase to
`rising` and resets the grounded/buffer timers. -/
def startJump (s : JumpState) : JumpState :=
  { s with phase := .rising, timeSinceGrounded := 0, jumpBufferTimer := 0 }

end JumpState

/-- A concrete reachable landing state: jump from the initial state, then one
update in which the integrator reports height 0 (triggering `startLanding`). -/
def exampleLandingState : JumpState :=
  JumpState.update (JumpState.startJump JumpState.init) 10 0 0

/-- C9 counterexample: `exampleLandingState` is a reachable state in the
`landing` phase, yet the explicit jump-initiation call takes it directly to
`rising` — contradicting the claim that no step ever moves the phase from
`landing` to `rising`. -/
theorem startJump_from_landing_goes_rising :
    exampleLandingState.phase = JumpPhase.landing ∧
      (JumpState.startJump exampleLandingState).phase = JumpPhase.rising := by
  constructor <;> rfl

/-- C9 amended: while in `landing`, an `update` step never moves the phase to
`rising` or `falling`: it stays `landing` while the decremented countdown is
positive and moves to `grounded` exactly when the countdown reaches zero or
below. -/
theorem landing_update_only_exits_to_grounded (s : JumpState)
    (dtMs height velocity : ℚ) (h : s.phase = JumpPhase.landing) :
    ((JumpState.update s dtMs height velocity).phase = JumpPhase.landing ∧
        0 < s.landingTimer - dtMs) ∨
      ((JumpState.update s dtMs height velocity).phase = JumpPhase.grounded ∧
        s.landingTimer - dtMs ≤ 0) := by
  unfold JumpState.update
  dsimp only
  simp only [h]
  split_ifs with h1 h2 h3 <;> simp_all [JumpState.setGrounded]

/-- Witness for the amended C9 theorem at the concrete reachable landing
state. -/
theorem landing_update_only_exits_to_grounded_witness :
    ((JumpState.update exampleLandingState 5 0 0).phase = JumpPhase.landing ∧
        0 < exampleLandingState.landingTimer - 5) ∨
      ((JumpState.update exampleLandingState 5 0 0).phase = JumpPhase.grounded ∧
        exampleLandingState.landingTimer - 5 ≤ 0) :=
  landing_update_only_exits_to_grounded exampleLandingState 5 0 0 rfl

/-- C10: a grounded state stays grounded whenever `update` is called with a
non-positive height, for every `dtMs` and `velocity`. -/
theorem grounded_update_stays_grounded (s : JumpState) (dtMs height velocity : ℚ)
    (hph : s.phase = JumpPhase.grounded) (hh : height ≤ 0) :
    (JumpState.update s dtMs height velocity).phase = JumpPhase.grounded := by
  unfold JumpState.update
  dsimp only
  simp only [hph]
  split_ifs <;> simp_all

/-- Witness for C10 at the initial state. -/
theorem grounded_update_stays_grounded_witness :
    (JumpState.update JumpState.init 16 0 5).phase = JumpPhase.grounded :=
  grounded_update_stays_grounded JumpState.init 16 0 5 rfl le_rfl

/-! ## Tile variant hash (src/world/map/TileVariants.ts, hash2D)

JavaScript arithmetic semantics needed here: `*` and `+` are IEEE-754 double
operations (exact on integers below `2^53`, rounded to 53 significant bits
above), while `^`, `&` and `>>>` first convert their operands to 32-bit
integers (`ToInt32`/`ToUint32`: truncate toward zero, reduce mod `2^32`).
`roundDouble` models rounding of an integer value to the nearest
representable double (ties to even); all intermediate values of `hash2D` are
integer-valued doubles, so this captures the JS computation exactly for
inputs whose magnitudes stay below `2^1024`. -/

/-- ToUint32 of an integer-valued double: reduce mod `2^32`. -/
def toUint32 (n : ℤ) : ℕ := (n % 4294967296).toNat

/-- Reinterpret a 32-bit unsigned value as signed (ToInt32 result). -/
def asInt32 (v : ℕ) : ℤ :=
  if v < 2147483648 then (v : ℤ) else (v : ℤ) - 4294967296

/-- Fuel-bounded base-2 logarithm (`⌊log₂ n⌋` for `n ≥ 1`, when the fuel
covers the bit length); structural recursion so that concrete evaluation
reduces inside proofs. -/
def log2fuel : ℕ → ℕ → ℕ
  | 0, _ => 0
  | fuel + 1, n => if n ≤ 1 then 0 else log2fuel fuel (n / 2) + 1

/-- Round an integer to the nearest IEEE-754 double (53 significant bits,
ties to even).  Values below `2^53` are exact.  The fuel of 1100 covers
every finite double magnitude (below `2^1024`). -/
def roundDouble (n : ℤ) : ℤ :=
  let a := n.natAbs
  if a < 9007199254740992 then n
  else
    let k := log2fuel 1100 a - 52
    let q := a / 2 ^ k
    let r := a % 2 ^ k
    let half := 2 ^ (k - 1)
    let q2 := if half < r ∨ (r = half ∧ q % 2 = 1) then q + 1 else q
    if n < 0 then -((q2 * 2 ^ k : ℕ) : ℤ) else ((q2 * 2 ^ k : ℕ) : ℤ)

namespace TileVariants

/-- Integer pipeline of `hash2D` under JS double semantics, producing the
masked 31-bit value `h & 0x7fffffff` fed into the normalization. -/
def hash2Dbits (x y : ℤ) : ℕ :=
  let h0 := roundDouble (roundDouble (x * 374761393) + roundDouble (y * 668265263))
  let u0 := toUint32 h0
  let v := u0 ^^^ (u0 >>> 13)
  let p := roundDouble (asInt32 v * 1274126177)
  let u1 := toUint32 p
  let w := u1 ^^^ (u1 >>> 16)
  w &&& 0x7fffffff

/-- Hash function from `TileVariants.hash2D`, under JS double semantics:
the integer mix followed by normalization to `[-1, 1]`. -/
def hash2D (x y : ℤ) : ℚ :=
  ((hash2Dbits x y : ℚ) / 0x7fffffff) * 2 - 1

/-- Reference integer pipeline from the spec: the same mix computed with
exact 32-bit wrapping arithmetic (no double rounding). -/
def hash2DrefBits (x y : ℤ) : ℕ :=
  let u0 := toUint32 (x * 374761393 + y * 668265263)
  let v := u0 ^^^ (u0 >>> 13)
  let u1 := (v * 1274126177) % 4294967296
  let w := u1 ^^^ (u1 >>> 16)
  w &&& 0x7fffffff

/-- Reference hash per the spec: 32-bit wrapping mix, then normalization. -/
def hash2Dref (x y : ℤ) : ℚ :=
  ((hash2DrefBits x y : ℚ) / 0x7fffffff) * 2 - 1

/-- First stage of the mix (the value `h ^ (h >>> 13)` as a 32-bit word),
assuming the initial sum was computed exactly. -/
def hashStage1 (x y : ℤ) : ℕ :=
  let u0 := toUint32 (x * 374761393 + y * 668265263)
  u0 ^^^ (u0 >>> 13)

end TileVariants

/-- Rounding is the identity below `2^53`. -/
theorem roundDouble_eq_of_small (n : ℤ) (h : n.natAbs < 9007199254740992) :
    roundDouble n = n := by
  unfold roundDouble
  simp [h]

/-- C1 counterexample: at tile coordinate `(1, 0)` the JS implementation of
`hash2D` differs from the spec's 32-bit wrapping reference mix — the double
product `(h ^ (h >>> 13)) * 1274126177` exceeds `2^53` and loses its low
bits, so `hash2D` is not bit-for-bit the wrapping computation. -/
theorem hash2D_ne_ref_at_1_0 : TileVariants.hash2D 1 0 ≠ TileVariants.hash2Dref 1 0 := by
  have h1 : TileVariants.hash2Dbits 1 0 = 34894292 := by decide
  have h2 : TileVariants.hash2DrefBits 1 0 = 34894294 := by decide
  unfold TileVariants.hash2D TileVariants.hash2Dref
  rw [h1, h2]
  norm_num

/-- C1 amended: whenever every double-precision intermediate stays below
`2^53` in magnitude (so no rounding occurs), `hash2D` agrees with the
32-bit wrapping reference; and for all integer inputs the returned value
lies in `[-1, 1]`. -/
theorem hash2D_amended (x y : ℤ) :
    (((x * 374761393).natAbs < 9007199254740992 →
      (y * 668265263).natAbs < 9007199254740992 →
      (x * 374761393 + y * 668265263).natAbs < 9007199254740992 →
      (asInt32 (TileVariants.hashStage1 x y) * 1274126177).natAbs < 9007199254740992 →
      TileVariants.hash2D x y = TileVariants.hash2Dref x y)) ∧
    (-1 ≤ TileVariants.hash2D x y ∧ TileVariants.hash2D x y ≤ 1) := by
  constructor
  · intro ha hb hc hd
    have hbits : TileVariants.hash2Dbits x y = TileVariants.hash2DrefBits x y := by
      unfold TileVariants.hash2Dbits TileVariants.hash2DrefBits
      dsimp only
      rw [roundDouble_eq_of_small _ ha, roundDouble_eq_of_small _ hb,
        roundDouble_eq_of_small _ hc]
      unfold TileVariants.hashStage1 at hd
      dsimp only at hd
      rw [roundDouble_eq_of_small _ hd]
      -- remaining difference: `toUint32 (asInt32 v * c)` versus `(v * c) % 2^32`
      set v := (toUint32 (x * 374761393 + y * 668265263)) ^^^
        ((toUint32 (x * 374761393 + y * 668265263)) >>> 13) with hv
      have hmod : toUint32 (asInt32 v * 1274126177) = (v * 1274126177) % 4294967296 := by
        have hcong : (asInt32 v * 1274126177) % 4294967296 =
            ((v : ℤ) * 1274126177) % 4294967296 := by
          unfold asInt32
          split_ifs with hsmall
          · rfl
          · have h2 : ((v : ℤ) - 4294967296) * 1274126177 =
                (v : ℤ) * 1274126177 + 4294967296 * (-1274126177) := by ring
            rw [h2, Int.add_mul_emod_self_left]
        unfold toUint32
        rw [hcong]
        have h3 : ((v : ℤ) * 1274126177) = ((v * 1274126177 : ℕ) : ℤ) := by push_cast; ring
        have h4 : ((4294967296 : ℤ)) = ((4294967296 : ℕ) : ℤ) := by norm_num
        rw [h3, h4, ← Int.ofNat_emod, Int.toNat_natCast]
      rw [hmod]
    unfold TileVariants.hash2D TileVariants.hash2Dref
    rw [hbits]
  · have hle : TileVariants.hash2Dbits x y ≤ 0x7fffffff := by
      unfold TileVariants.hash2Dbits
      exact Nat.and_le_right
    constructor
    · unfold TileVariants.hash2D
      have h0 : (0 : ℚ) ≤ (TileVariants.hash2Dbits x y : ℚ) / 0x7fffffff := by
        positivity
      linarith
    · unfold TileVariants.hash2D
      have h1 : (TileVariants.hash2Dbits x y : ℚ) / 0x7fffffff ≤ 1 := by
        rw [div_le_one (by norm_num)]
        exact_mod_cast hle
      linarith

/-- Witness for the amended C1 theorem, at coordinates `(0, 0)` where all
intermediates are exact. -/
theorem hash2D_amended_witness :
    TileVariants.hash2D 0 0 = TileVariants.hash2Dref 0 0 ∧
      (-1 ≤ TileVariants.hash2D 0 0 ∧ TileVariants.hash2D 0 0 ≤ 1) :=
  ⟨(hash2D_amended 0 0).1 (by decide) (by decide) (by decide) (by decide),
    (hash2D_amended 0 0).2⟩

/-! ## Landing assist (src/world/entities/jumping/LandingAssist.ts)

The source compares `Math.hypot` distances.  All compared distances are
square roots of rationals, so every comparison is modelled exactly on the
squared values: for `d = √dSq` (with `dSq ≥ 0`), `d ≤ b ↔ 0 ≤ b ∧ dSq ≤ b²`,
and `d₁ < d₂ ↔ dSq₁ < dSq₂`. -/

namespace LandingAssist

/-- Configuration, from the `LandingAssist` constructor (defaults:
pushOutEnabled true, snapDistance 6, checkRadius 16). -/
structure Config where
  pushOutEnabled : Bool
  snapDistance : ℚ
  checkRadius : ℚ
deriving Repr

/-- Default configuration from the constructor. -/
def defaultConfig : Config :=
  { pushOutEnabled := true, snapDistance := 6, checkRadius := 16 }

/-- Squared Euclidean distance (the square of the source's `Math.hypot`). -/
def distSq (x1 y1 x2 y2 : ℚ) : ℚ := (x1 - x2) ^ 2 + (y1 - y2) ^ 2

/-- Comparison `√dSq ≤ bound`, expressed on the squared distance. -/
def sqrtLe (dSq bound : ℚ) : Bool := 0 ≤ bound ∧ dSq ≤ bound ^ 2

/-- The eight probe positions at a given radius, from
`findNearestValidPosition` (right, left, down, up, then the four
diagonals). -/
def positionsAt (cx cy r : ℚ) : List (ℚ × ℚ) :=
  [(cx + r, cy), (cx - r, cy), (cx, cy + r), (cx, cy - r),
   (cx + r, cy + r), (cx - r, cy + r), (cx + r, cy - r), (cx - r, cy - r)]

/-- Consider one probe position: keep it as the new best candidate when it
is valid (not blocked) and strictly closer than the current best. -/
def consider (checkCollision : ℚ → ℚ → Bool) (cx cy : ℚ)
    (best : Option ((ℚ × ℚ) × ℚ)) (pos : ℚ × ℚ) : Option ((ℚ × ℚ) × ℚ) :=
  if checkCollision pos.1 pos.2 then best
  else
    let d := distSq pos.1 pos.2 cx cy
    match best with
    | none => some (pos, d)
    | some (bp, bd) => if d < bd then some (pos, d) else some (bp, bd)

/-- The radius loop of `findNearestValidPosition`: at each radius scan all
eight probes updating the best candidate, then return it immediately when it
is within the snap distance; at the end of the sweep return the best
candidate found, if any. -/
def searchLoop (cfg : Config) (checkCollision : ℚ → ℚ → Bool) (cx cy : ℚ) :
    List ℚ → Option ((ℚ × ℚ) × ℚ) → Option (ℚ × ℚ)
  | [], best => best.map (·.1)
  | r :: rest, best =>
    match (positionsAt cx cy r).foldl (consider checkCollision cx cy) best with
    | some (p, d) =>
      if sqrtLe d cfg.snapDistance then some p
      else searchLoop cfg checkCollision cx cy rest (some (p, d))
    | none => searchLoop cfg checkCollision cx cy rest none

/-- Radii scanned by the search: `2, 4, …` while `radius ≤ checkRadius`
(`searchStep = 2`). -/
def radii (cfg : Config) : List ℚ :=
  (List.range (Int.toNat ⌊cfg.checkRadius / 2⌋)).map (fun k => ((2 * (k + 1) : ℕ) : ℚ))

/-- Position search, from `LandingAssist.findNearestValidPosition`. -/
def findNearestValidPosition (cfg : Config) (currentX currentY : ℚ)
    (checkCollision : ℚ → ℚ → Bool) : Option (ℚ × ℚ) :=
  if ¬ checkCollision currentX currentY then some (currentX, currentY)
  else if ¬ cfg.pushOutEnabled then none
  else searchLoop cfg checkCollision currentX currentY (radii cfg) none

/-- Landing correction, from `LandingAssist.assistLanding`: no correction
when the landing point is free; otherwise search for the nearest valid
position and accept it only within `checkRadius`. -/
def assistLanding (cfg : Config) (landingX landingY : ℚ)
    (checkCollision : ℚ → ℚ → Bool) : Option (ℚ × ℚ) :=
  if ¬ checkCollision landingX landingY then none
  else
    match findNearestValidPosition cfg landingX landingY checkCollision with
    | none => none
    | some p =>
      if ¬ sqrtLe (distSq p.1 p.2 landingX landingY) cfg.checkRadius then none
      else some p

/-- Validity invariant of a best candidate: its position is not blocked. -/
def validBest (checkCollision : ℚ → ℚ → Bool) : Option ((ℚ × ℚ) × ℚ) → Prop
  | none => True
  | some (p, _) => checkCollision p.1 p.2 = false

theorem consider_valid (checkCollision : ℚ → ℚ → Bool) (cx cy : ℚ)
    (best : Option ((ℚ × ℚ) × ℚ)) (pos : ℚ × ℚ)
    (h : validBest checkCollision best) :
    validBest checkCollision (consider checkCollision cx cy best pos) := by
  unfold consider
  split_ifs with hc
  · exact h
  · rcases best with _ | ⟨bp, bd⟩
    · simpa [validBest] using eq_false_of_ne_true (by simp [hc])
    · dsimp only
      split_ifs
      · simpa [validBest] using eq_false_of_ne_true (by simp [hc])
      · exact h

theorem foldl_consider_valid (checkCollision : ℚ → ℚ → Bool) (cx cy : ℚ)
    (l : List (ℚ × ℚ)) (best : Option ((ℚ × ℚ) × ℚ))
    (h : validBest checkCollision best) :
    validBest checkCollision (l.foldl (consider checkCollision cx cy) best) := by
  induction l generalizing best with
  | nil => exact h
  | cons pos rest ih =>
    exact ih _ (consider_valid checkCollision cx cy best pos h)

theorem searchLoop_valid (cfg : Config) (checkCollision : ℚ → ℚ → Bool)
    (cx cy : ℚ) (l : List ℚ) (best : Option ((ℚ × ℚ) × ℚ)) (p : ℚ × ℚ)
    (hb : validBest checkCollision best)
    (h : searchLoop cfg checkCollision cx cy l best = some p) :
    checkCollision p.1 p.2 = false := by
  induction l generalizing best with
  | nil =>
    unfold searchLoop at h
    rcases best with _ | ⟨bp, bd⟩
    · simp at h
    · simp at h
      subst h
      exact hb
  | cons r rest ih =>
    unfold searchLoop at h
    have hb2 := foldl_consider_valid checkCollision cx cy (positionsAt cx cy r) best hb
    rcases hcases : (positionsAt cx cy r).foldl (consider checkCollision cx cy) best with
      _ | ⟨q, d⟩
    · rw [hcases] at h hb2
      exact ih _ hb2 h
    · rw [hcases] at h hb2
      dsimp only at h
      split_ifs at h with hsnap
      · cases h
        exact hb2
      · exact ih _ hb2 h

theorem findNearestValidPosition_valid (cfg : Config) (cx cy : ℚ)
    (checkCollision : ℚ → ℚ → Bool) (p : ℚ × ℚ)
    (h : findNearestValidPosition cfg cx cy checkCollision = some p) :
    checkCollision p.1 p.2 = false := by
  unfold findNearestValidPosition at h
  by_cases h1 : checkCollision cx cy = true
  · rw [if_neg (not_not_intro h1)] at h
    by_cases h2 : cfg.pushOutEnabled = true
    · rw [if_neg (not_not_intro h2)] at h
      exact searchLoop_valid cfg checkCollision cx cy (radii cfg) none p trivial h
    · rw [if_pos h2] at h
      exact absurd h (by simp)
  · rw [if_pos h1] at h
    cases h
    exact eq_false_of_ne_true h1

/-- C3: whenever `assistLanding` returns a corrected position, that
position is not blocked, and its distance from the original landing point
is at most the configured `checkRadius` (stated on squared distances:
`distSq ≤ checkRadius²` with `0 ≤ checkRadius`, which for nonnegative
radicands is exactly `√distSq ≤ checkRadius`). -/
theorem assistLanding_valid (cfg : Config) (landingX landingY : ℚ)
    (checkCollision : ℚ → ℚ → Bool) (p : ℚ × ℚ)
    (h : assistLanding cfg landingX landingY checkCollision = some p) :
    checkCollision p.1 p.2 = false ∧ 0 ≤ cfg.checkRadius ∧
      distSq p.1 p.2 landingX landingY ≤ cfg.checkRadius ^ 2 := by
  unfold assistLanding at h
  by_cases h1 : checkCollision landingX landingY = true
  · rw [if_neg (not_not_intro h1)] at h
    cases hfind : findNearestValidPosition cfg landingX landingY checkCollision with
    | none =>
      rw [hfind] at h
      exact absurd h (by simp)
    | some q =>
      rw [hfind] at h
      dsimp only at h
      by_cases h2 : sqrtLe (distSq q.1 q.2 landingX landingY) cfg.checkRadius = true
      · rw [if_neg (not_not_intro h2)] at h
        cases h
        have hvalid :=
          findNearestValidPosition_valid cfg landingX landingY checkCollision p hfind
        have h3 : (0 ≤ cfg.checkRadius ∧
            distSq p.1 p.2 landingX landingY ≤ cfg.checkRadius ^ 2) := by
          simpa [sqrtLe] using h2
        exact ⟨hvalid, h3.1, h3.2⟩
      · rw [if_pos h2] at h
        exact absurd h (by simp)
  · rw [if_pos h1] at h
    exact absurd h (by simp)

end LandingAssist

/-- The concrete blocking predicate used in the C3 witness: only the origin
is blocked. -/
def exBlockOrigin : ℚ → ℚ → Bool := fun a b => decide (a = 0 ∧ b = 0)

/-- A concrete configuration for the C3 witness: push-out enabled, snap
distance 6, check radius 2. -/
def exAssistConfig : LandingAssist.Config := ⟨true, 6, 2⟩

/-- The radius sweep of `exAssistConfig` consists of the single radius 2. -/
theorem exAssistConfig_radii : LandingAssist.radii exAssistConfig = [2] := by
  unfold LandingAssist.radii exAssistConfig
  norm_num [List.range_succ]

/-- Evaluation of the landing search at the witness input: landing on the
blocked origin is corrected to `(2, 0)`. -/
theorem exAssist_eval :
    LandingAssist.assistLanding exAssistConfig 0 0 exBlockOrigin = some (2, 0) := by
  unfold LandingAssist.assistLanding LandingAssist.findNearestValidPosition
  rw [exAssistConfig_radii]
  norm_num [LandingAssist.searchLoop, LandingAssist.positionsAt, LandingAssist.consider,
    LandingAssist.distSq, LandingAssist.sqrtLe, exBlockOrigin, exAssistConfig]

/-- Witness for C3 at the concrete configuration: the corrected position
`(2, 0)` is free and within the check radius. -/
theorem assistLanding_valid_witness :
    exBlockOrigin 2 0 = false ∧ 0 ≤ exAssistConfig.checkRadius ∧
      LandingAssist.distSq 2 0 0 0 ≤ exAssistConfig.checkRadius ^ 2 := by
  have h := LandingAssist.assistLanding_valid exAssistConfig 0 0
    exBlockOrigin (2, 0) exAssist_eval
  simpa using h

/-! ## Player movement and collision resolution (src/world/entities/Player.ts)

The collision-resolution portion of `Player.update` (lines 116–158) acts on
the tick's proposed position `(newX, newY) = (x + vx·dt, y + vy·dt)` and the
post-physics velocity `(vx, vy)`; it is embedded here as a function of those
values, with the hitbox probe `checkCollision` (lines 164–196) embedded in
full.  `Math.round` in JS is `⌊x + 1/2⌋` (half away from negative infinity),
modelled by `jsRound`. -/

namespace Player

/-- Hitbox configuration of a player, from the `Player` constructor. -/
structure Hitbox where
  hitboxWidth : ℚ
  hitboxHeight : ℚ
  hitboxOffsetX : ℚ
  hitboxOffsetY : ℚ
deriving Repr

/-- The inward epsilon used by the hitbox probe (`epsilon = 0.1`). -/
def epsilon : ℚ := 1 / 10

/-- Hitbox collision probe, from `Player.checkCollision`: the four corners
and four edge midpoints of the epsilon-shrunk hitbox are sampled; the
position collides when any sample point is blocked. -/
def checkCollision (hb : Hitbox) (isBlocked : ℚ → ℚ → Bool)
    (worldX worldY : ℚ) : Bool :=
  let left := worldX + hb.hitboxOffsetX - hb.hitboxWidth / 2 + epsilon
  let right := worldX + hb.hitboxOffsetX + hb.hitboxWidth / 2 - epsilon
  let top := worldY + hb.hitboxOffsetY - hb.hitboxHeight / 2 + epsilon
  let bottom := worldY + hb.hitboxOffsetY + hb.hitboxHeight / 2 - epsilon
  let checkPoints : List (ℚ × ℚ) :=
    [(left, top), (right, top), (left, bottom), (right, bottom),
     (worldX, top), (worldX, bottom), (left, worldY), (right, worldY)]
  checkPoints.any (fun pt => isBlocked pt.1 pt.2)

/-- JS `Math.round`: round half toward positive infinity. -/
def jsRound (q : ℚ) : ℤ := ⌊q + 1 / 2⌋

/-- Collision resolution of one tick, from `Player.update` (the
`isBlocked`-present branch): try the diagonal proposal, then horizontal-only,
then vertical-only, else hold position; zero the velocity on each blocked
axis; snap the final position to integer pixels.  Returns the new position
and velocity. -/
def resolveMovement (hb : Hitbox) (isBlocked : ℚ → ℚ → Bool)
    (x y newX newY vx vy : ℚ) : (ℚ × ℚ) × (ℚ × ℚ) :=
  let blocked :=
    if checkCollision hb isBlocked newX newY then
      if ¬ checkCollision hb isBlocked newX y then
        ((newX, y), (false, true))
      else if ¬ checkCollision hb isBlocked x newY then
        ((x, newY), (true, false))
      else
        ((x, y), (true, true))
    else
      ((newX, newY), (false, false))
  let finalX := blocked.1.1
  let finalY := blocked.1.2
  let vx2 := if blocked.2.1 then 0 else vx
  let vy2 := if blocked.2.2 then 0 else vy
  ((((jsRound finalX : ℤ) : ℚ), ((jsRound finalY : ℤ) : ℚ)), (vx2, vy2))

end Player

/-- C4: axis-independent sliding in `Player.update`.  When the diagonal
proposal collides but horizontal-only does not, the entity moves only
horizontally (its pre-snap vertical position is the unchanged `y`), with the
vertical velocity zeroed; symmetrically for vertical-only; when all three
proposals collide, the position is held and both velocity components are
zeroed; and in every case the final position is snapped to integer pixels. -/
theorem resolveMovement_cases (hb : Player.Hitbox) (isBlocked : ℚ → ℚ → Bool)
    (x y newX newY vx vy : ℚ) :
    (Player.checkCollision hb isBlocked newX newY = true →
      Player.checkCollision hb isBlocked newX y = false →
      Player.resolveMovement hb isBlocked x y newX newY vx vy =
        ((((Player.jsRound newX : ℤ) : ℚ), ((Player.jsRound y : ℤ) : ℚ)), (vx, 0))) ∧
    (Player.checkCollision hb isBlocked newX newY = true →
      Player.checkCollision hb isBlocked newX y = true →
      Player.checkCollision hb isBlocked x newY = false →
      Player.resolveMovement hb isBlocked x y newX newY vx vy =
        ((((Player.jsRound x : ℤ) : ℚ), ((Player.jsRound newY : ℤ) : ℚ)), (0, vy))) ∧
    (Player.checkCollision hb isBlocked newX newY = true →
      Player.checkCollision hb isBlocked newX y = true →
      Player.checkCollision hb isBlocked x newY = true →
      Player.resolveMovement hb isBlocked x y newX newY vx vy =
        ((((Player.jsRound x : ℤ) : ℚ), ((Player.jsRound y : ℤ) : ℚ)), (0, 0))) ∧
    (∃ a b : ℤ,
      (Player.resolveMovement hb isBlocked x y newX newY vx vy).1 =
        ((a : ℚ), (b : ℚ))) := by
  refine ⟨?_, ?_, ?_, ?_⟩
  · intro hd hh
    simp [Player.resolveMovement, hd, hh]
  · intro hd hh hv
    simp [Player.resolveMovement, hd, hh, hv]
  · intro hd hh hv
    simp [Player.resolveMovement, hd, hh, hv]
  · unfold Player.resolveMovement
    dsimp only
    exact ⟨_, _, rfl⟩

/-- A concrete blocking predicate for the C4 witness: the world blocks every
point with `10 ≤ y` (a horizontal wall below). -/
def exWallBelow : ℚ → ℚ → Bool := fun _ b => decide (10 ≤ b)

/-- A concrete 4×4 hitbox centered on the entity. -/
def exHitbox : Player.Hitbox := ⟨4, 4, 0, 0⟩

/-- Witness for C4, first case: moving diagonally down-right into the wall
slides horizontally only and zeroes the vertical velocity. -/
theorem resolveMovement_cases_witness :
    Player.resolveMovement exHitbox exWallBelow 0 0 6 9 60 90 =
      ((6, 0), (60, 0)) := by
  have h := (resolveMovement_cases exHitbox exWallBelow 0 0 6 9 60 90).1
  have hd : Player.checkCollision exHitbox exWallBelow 6 9 = true := by
    norm_num [Player.checkCollision, Player.epsilon, exHitbox, exWallBelow]
  have hh : Player.checkCollision exHitbox exWallBelow 6 0 = false := by
    norm_num [Player.checkCollision, Player.epsilon, exHitbox, exWallBelow]
  rw [h hd hh]
  norm_num [Player.jsRound]

/-! ## Tiled map converter (src/world/map/TiledConverter.ts)

JS exceptions are modelled with `Except String`; optional JSON fields with
`Option`.  Numbers that the converter only stores or compares (tile edge
lengths, z-indices, property values) are rationals; tile indices (gids) are
naturals, reduced mod `2^32` where the source applies JS bitwise operators.
The `TileLayer`/`TileMap` classes constructed by the converter are a newer
generation than `TileLayer.ts`/`TileMap.ts` above; they are represented by
records of the constructor arguments (`CTileLayer`, `CTileMap`).  The
unused JSON fields (`tilecount`, `columns`, `opacity`, layer ids, tileset
tile sizes) are omitted.  A JS `Map` is an association list whose most
recent insertion comes first. -/

namespace TiledConverter

/-- Value of a Tiled custom property (string / int / float / bool). -/
inductive PropValue where
  | pstr (s : String)
  | pnum (q : ℚ)
  | pbool (b : Bool)
deriving DecidableEq, Repr

/-- JS truthiness of a property value: `""`, `0` and `false` are falsy. -/
def PropValue.truthy : PropValue → Bool
  | .pstr s => s ≠ ""
  | .pnum q => q ≠ 0
  | .pbool b => b

/-- A named Tiled custom property. -/
structure TiledProperty where
  name : String
  value : PropValue
deriving DecidableEq, Repr

/-- Property lookup, from `getProperty`: value of the first property with
the given name. -/
def getProperty (properties : List TiledProperty) (name : String) : Option PropValue :=
  (properties.find? (fun p => p.name = name)).map (·.value)

/-- A per-tile record inside a tileset. -/
structure TiledTile where
  id : ℕ
  properties : Option (List TiledProperty)
deriving DecidableEq, Repr

/-- An embedded (or externally referenced, via `source`) tileset. -/
structure TiledTileset where
  firstgid : ℕ
  name : String
  tiles : Option (List TiledTile)
  source : Option String
deriving DecidableEq, Repr

/-- A raw Tiled layer: tile layers carry dimensions and data; all other
layer types (`objectgroup`, `imagelayer`, `group`) are skipped by the
converter and collapsed into `otherLayer`. -/
inductive RawTiledLayer where
  | tilelayer (name : String) (width height : ℕ) (data : List ℕ)
      (visible : Bool) (properties : Option (List TiledProperty))
  | otherLayer
deriving DecidableEq, Repr

/-- The input Tiled map document. -/
structure TiledMap where
  width : ℕ
  height : ℕ
  tilewidth : ℚ
  tileheight : ℚ
  layers : List RawTiledLayer
  tilesets : List TiledTileset
deriving DecidableEq, Repr

/-- Layer kinds recognized by the converter. -/
inductive LayerKind where
  | tile | collision | ignore
deriving DecidableEq, Repr

/-- Per-layer override entry (`LayerConfig`). -/
structure LayerConfig where
  kind : Option LayerKind := none
  zIndex : Option ℚ := none
  collides : Option Bool := none
deriving DecidableEq, Repr

/-- Converter options with the defaults of `DEFAULT_OPTIONS` applied. -/
structure Options where
  defaultTileId : String
  tileIdProperty : String := "tileId"
  collidesProperty : String := "collides"
  layerKindProperty : String := "wayfare:kind"
  layerZIndexProperty : String := "wayfare:zIndex"
  layerOverrides : List (String × LayerConfig) := []
deriving DecidableEq, Repr

/-- Lookup of `opts.layerOverrides?.[name]`. -/
def lookupOverride (opts : Options) (name : String) : Option LayerConfig :=
  ((opts.layerOverrides).find? (fun p => p.1 = name)).map (·.2)

/-- Metadata derived from a tileset tile: its engine tile id property value
and collide flag. -/
structure TileMetadata where
  tileId : PropValue
  collides : Bool
deriving DecidableEq, Repr

/-- A converted tile record (`{ tileId }`). -/
structure CTile where
  tileId : PropValue
deriving DecidableEq, Repr

/-- Constructor arguments of the converter-facing `TileLayer`. -/
structure CTileLayer where
  name : String
  width : ℕ
  height : ℕ
  tiles : List CTile
  zIndex : ℚ
deriving DecidableEq, Repr

/-- Constructor arguments of the converter-facing `TileMap`. -/
structure CTileMap where
  width : ℕ
  height : ℕ
  tileSize : ℚ
  layers : List CTileLayer
  collisionGrid : List ℕ
deriving DecidableEq, Repr

/-- The three flip/rotation flag bits (`FLIPPED_BITS_MASK`). -/
def FLIPPED_BITS_MASK : ℕ := 0xe0000000

/-- The complement mask `~FLIPPED_BITS_MASK` within 32 bits. -/
def BASE_GID_MASK : ℕ := 0x1fffffff

/-- Lookup in the metadata map (most recent insertion first). -/
def mdLookup (md : List (ℕ × TileMetadata)) (gid : ℕ) : Option TileMetadata :=
  (md.find? (fun p => p.1 = gid)).map (·.2)

/-- JS truthiness of the optional `source` field of a tileset. -/
def sourceTruthy (ts : TiledTileset) : Bool :=
  match ts.source with
  | none => false
  | some s => s ≠ ""

/-- Process the tile list of one tileset, from the inner `forEach` of
`buildTileMetadata`: a tile without properties is skipped; a tile whose
kind-mapping property is absent or falsy is an error; otherwise record the
metadata under `firstgid + tile.id`. -/
def processTilesetTiles (firstgid : ℕ) (tilesetName : String)
    (tileIdProperty collidesProperty : String) :
    List TiledTile → List (ℕ × TileMetadata) → Except String (List (ℕ × TileMetadata))
  | [], md => .ok md
  | tile :: rest, md =>
    match tile.properties with
    | none => processTilesetTiles firstgid tilesetName tileIdProperty collidesProperty rest md
    | some props =>
      match getProperty props tileIdProperty with
      | none =>
        .error ("Tileset \x22" ++ tilesetName ++ "\x22 tile is missing property \x22" ++
          tileIdProperty ++ "\x22")
      | some v =>
        if ¬ v.truthy then
          .error ("Tileset \x22" ++ tilesetName ++ "\x22 tile is missing property \x22" ++
            tileIdProperty ++ "\x22")
        else
          let collidesValue :=
            match getProperty props collidesProperty with
            | none => false
            | some c => c.truthy
          processTilesetTiles firstgid tilesetName tileIdProperty collidesProperty rest
            ((firstgid + tile.id, ⟨v, collidesValue⟩) :: md)

/-- Process one tileset, from `buildTileMetadata`: an externally referenced
tileset (truthy `source`) is an error; a tileset without a `tiles` list is
skipped. -/
def processTileset (tileIdProperty collidesProperty : String)
    (ts : TiledTileset) (md : List (ℕ × TileMetadata)) :
    Except String (List (ℕ × TileMetadata)) :=
  if sourceTruthy ts then
    .error ("Tileset \x22" ++ ts.name ++ "\x22 is referenced externally. Enable embedding.")
  else
    match ts.tiles with
    | none => .ok md
    | some tiles => processTilesetTiles ts.firstgid ts.name tileIdProperty collidesProperty tiles md

/-- Metadata construction, from `buildTileMetadata`. -/
def buildTileMetadata (tileIdProperty collidesProperty : String) :
    List TiledTileset → List (ℕ × TileMetadata) → Except String (List (ℕ × TileMetadata))
  | [], md => .ok md
  | ts :: rest, md =>
    match processTileset tileIdProperty collidesProperty ts md with
    | .error e => .error e
    | .ok md2 => buildTileMetadata tileIdProperty collidesProperty rest md2

/-- Layer kind resolution, from `resolveLayerKind`: an override wins; a
missing or falsy property defaults to `tile`; one of the three known strings
resolves; anything else is an error. -/
def resolveLayerKind (layerName : String) (properties : Option (List TiledProperty))
    (propertyName : String) (override : Option LayerKind) : Except String LayerKind :=
  match override with
  | some k => .ok k
  | none =>
    let property :=
      match properties with
      | none => none
      | some props => getProperty props propertyName
    match property with
    | none => .ok .tile
    | some v =>
      if ¬ v.truthy then .ok .tile
      else if v = .pstr "tile" then .ok .tile
      else if v = .pstr "collision" then .ok .collision
      else if v = .pstr "ignore" then .ok .ignore
      else .error ("Layer \x22" ++ layerName ++ "\x22 has unsupported kind.")

/-- Z-index resolution, from `resolveLayerZIndex`: the numeric property if
present, else the layer's position index.  (A property of non-numeric type
would be stored as-is by the source's unchecked cast; it cannot inhabit `ℚ`
here and falls back to the index.) -/
def resolveLayerZIndex (properties : Option (List TiledProperty))
    (propertyName : String) (fallbackIndex : ℚ) : ℚ :=
  match properties with
  | none => fallbackIndex
  | some props =>
    match getProperty props propertyName with
    | some (.pnum q) => q
    | some _ => fallbackIndex
    | none => fallbackIndex

/-- Process the cells of one tile layer, from the `forEach` in
`convertLayerTiles`: gid 0 becomes the default tile; a non-zero base gid
without metadata is an error; a gid carrying flip bits is an error;
otherwise append the converted tile and mark the shared collision grid
(out-of-range writes are no-ops, as for a `Uint8Array`). -/
def convertCells (layerName : String) (defaultTileId : String)
    (metadata : List (ℕ × TileMetadata)) (markLayerCollision : Bool) :
    List ℕ → ℕ → List CTile × List ℕ → Except String (List CTile × List ℕ)
  | [], _, st => .ok st
  | gidWithFlags :: rest, index, st =>
    let bits := gidWithFlags % 4294967296
    let baseGid := bits &&& BASE_GID_MASK
    if baseGid = 0 then
      convertCells layerName defaultTileId metadata markLayerCollision rest (index + 1)
        (st.1 ++ [⟨.pstr defaultTileId⟩], st.2)
    else
      match mdLookup metadata baseGid with
      | none =>
        .error ("Layer \x22" ++ layerName ++ "\x22 references a tile GID with no metadata mapping.")
      | some tileMeta =>
        if bits &&& FLIPPED_BITS_MASK ≠ 0 then
          .error ("Layer \x22" ++ layerName ++ "\x22 uses a flipped/rotated tile GID.")
        else
          convertCells layerName defaultTileId metadata markLayerCollision rest (index + 1)
            (st.1 ++ [⟨tileMeta.tileId⟩],
              if markLayerCollision || tileMeta.collides then st.2.set index 1 else st.2)

/-- Conversion of one tile layer, from `convertLayerTiles`: reject a data
array whose length disagrees with the declared `width * height`, convert
every cell, then reject a declared width that disagrees with the map
width. -/
def convertLayerTiles (layerName : String) (layerWidth layerHeight : ℕ)
    (layerData : List ℕ) (mapWidth : ℕ) (defaultTileId : String)
    (metadata : List (ℕ × TileMetadata)) (collisionGrid : List ℕ)
    (markLayerCollision : Bool) : Except String (List CTile × List ℕ) :=
  if layerData.length ≠ layerWidth * layerHeight then
    .error ("Layer \x22" ++ layerName ++ "\x22 has a tile count mismatch.")
  else
    match convertCells layerName defaultTileId metadata markLayerCollision
      layerData 0 ([], collisionGrid) with
    | .error e => .error e
    | .ok st =>
      if layerWidth ≠ mapWidth then
        .error ("Layer \x22" ++ layerName ++ "\x22 width does not match the map width.")
      else
        .ok st

/-- Processing of one entry of `data.layers` (with its position index),
from the `forEach` in `fromTiled`. -/
def processLayer (data : TiledMap) (opts : Options) (md : List (ℕ × TileMetadata))
    (index : ℕ) (st : List CTileLayer × List ℕ) :
    RawTiledLayer → Except String (List CTileLayer × List ℕ)
  | .otherLayer => .ok st
  | .tilelayer name width height ldata visible properties =>
    if ¬ visible then .ok st
    else
      let override := lookupOverride opts name
      match resolveLayerKind name properties opts.layerKindProperty
        (override.bind (·.kind)) with
      | .error e => .error e
      | .ok layerKind =>
        if layerKind = .ignore then .ok st
        else
          let zIndex := (override.bind (·.zIndex)).getD
            (resolveLayerZIndex properties opts.layerZIndexProperty (index : ℚ))
          let collides := (override.bind (·.collides)).getD (layerKind = .collision)
          match convertLayerTiles name width height ldata data.width
            opts.defaultTileId md st.2 collides with
          | .error e => .error e
          | .ok res =>
            if layerKind = .tile then
              .ok (st.1 ++ [⟨name, data.width, data.height, res.1, zIndex⟩], res.2)
            else
              .ok (st.1, res.2)

/-- The layer loop of `fromTiled`, carrying the position index. -/
def processLayers (data : TiledMap) (opts : Options) (md : List (ℕ × TileMetadata)) :
    List RawTiledLayer → ℕ → (List CTileLayer × List ℕ) →
      Except String (List CTileLayer × List ℕ)
  | [], _, st => .ok st
  | l :: rest, index, st =>
    match processLayer data opts md index st l with
    | .error e => .error e
    | .ok st2 => processLayers data opts md rest (index + 1) st2

/-- The converter, from `TiledConverter.fromTiled`: reject non-square tile
cells, build the tileset metadata, convert every visible non-ignored tile
layer accumulating the shared collision grid, reject a map without any
converted tile layer, and assemble the resulting map. -/
def fromTiled (data : TiledMap) (opts : Options) : Except String CTileMap :=
  if data.tilewidth ≠ data.tileheight then
    .error "Expected square tiles."
  else
    match buildTileMetadata opts.tileIdProperty opts.collidesProperty data.tilesets [] with
    | .error e => .error e
    | .ok md =>
      match processLayers data opts md data.layers 0
        ([], List.replicate (data.width * data.height) 0) with
      | .error e => .error e
      | .ok st =>
        if st.1.isEmpty then
          .error "No visible tile layers were converted from the Tiled map."
        else
          .ok ⟨data.width, data.height, data.tilewidth, st.1, st.2⟩

/-- Entry point, from `TiledConverter.fromJSON` applied to an
already-parsed document (string parsing is outside this model). -/
def fromJSON (data : TiledMap) (opts : Options) : Except String CTileMap :=
  fromTiled data opts

/-- Error discriminator for `Except`. -/
def isErr {ε α : Type} : Except ε α → Bool
  | .error _ => true
  | .ok _ => false

/-- The cell data of a layer (`[]` for non-tile layers). -/
def layerDataOf : RawTiledLayer → List ℕ
  | .tilelayer _ _ _ d _ _ => d
  | .otherLayer => []

/-- Whether the converter processes a layer: a visible tile layer whose
kind does not resolve to `ok ignore` (a kind-resolution error also counts,
since it already aborts the conversion). -/
def layerProcessed (opts : Options) : RawTiledLayer → Bool
  | .otherLayer => false
  | .tilelayer name _ _ _ visible properties =>
    visible &&
      (match resolveLayerKind name properties opts.layerKindProperty
        ((lookupOverride opts name).bind (·.kind)) with
       | .ok .ignore => false
       | _ => true)

/-- Condition: the map's tile cells are not square. -/
def condNonSquare (data : TiledMap) : Bool :=
  data.tilewidth != data.tileheight

/-- Condition: some tileset is externally referenced (truthy `source`). -/
def condExternalTileset (data : TiledMap) : Bool :=
  data.tilesets.any sourceTruthy

/-- A gid value carrying flip/rotation flag bits. -/
def gidFlagged (gid : ℕ) : Bool :=
  (gid % 4294967296) &&& FLIPPED_BITS_MASK != 0

/-- A gid value carrying flag bits whose base tile index is non-zero. -/
def gidFlaggedNonzero (gid : ℕ) : Bool :=
  gidFlagged gid && ((gid % 4294967296) &&& BASE_GID_MASK != 0)

/-- Condition (claim C5 as stated): some processed layer references a gid
carrying flip/rotation flag bits. -/
def condFlipped (opts : Options) (data : TiledMap) : Bool :=
  data.layers.any fun l => layerProcessed opts l && (layerDataOf l).any gidFlagged

/-- Condition (amended): some processed layer references a gid carrying
flag bits whose base tile index is non-zero. -/
def condFlippedBase (opts : Options) (data : TiledMap) : Bool :=
  data.layers.any fun l => layerProcessed opts l && (layerDataOf l).any gidFlaggedNonzero

/-- Condition: some processed layer's declared width disagrees with the map
width. -/
def condWidthMismatch (opts : Options) (data : TiledMap) : Bool :=
  data.layers.any fun l =>
    layerProcessed opts l &&
      (match l with
       | .tilelayer _ w _ _ _ _ => w != data.width
       | .otherLayer => false)

/-- Whether a tileset tile record carries a truthy kind-mapping (tileId)
property. -/
def tileHasTruthyId (tileIdProperty : String) (tile : TiledTile) : Bool :=
  match tile.properties with
  | none => false
  | some props =>
    match getProperty props tileIdProperty with
    | none => false
    | some v => v.truthy

/-- The tile records of a tileset (`[]` when absent). -/
def tilesOf (ts : TiledTileset) : List TiledTile :=
  match ts.tiles with
  | none => []
  | some tiles => tiles

/-- Whether some tileset tile record maps the given global tile index to a
truthy kind-mapping (tileId) property. -/
def gidHasMapping (tileIdProperty : String) (tilesets : List TiledTileset) (gid : ℕ) : Bool :=
  tilesets.any fun ts =>
    (tilesOf ts).any fun tile =>
      decide (ts.firstgid + tile.id = gid) && tileHasTruthyId tileIdProperty tile

/-- Condition: some processed layer references a non-zero base gid that no
tileset tile record maps to a (truthy) kind-mapping property. -/
def condMissingMeta (opts : Options) (data : TiledMap) : Bool :=
  data.layers.any fun l =>
    layerProcessed opts l &&
      (layerDataOf l).any fun gid =>
        ((gid % 4294967296) &&& BASE_GID_MASK != 0) &&
          ! gidHasMapping opts.tileIdProperty data.tilesets
            ((gid % 4294967296) &&& BASE_GID_MASK)

/-- A cell whose processing necessarily fails: non-zero base gid that is
either unmapped or flagged. -/
def cellBad (md : List (ℕ × TileMetadata)) (gid : ℕ) : Prop :=
  ¬ ((gid % 4294967296) &&& BASE_GID_MASK = 0) ∧
    (mdLookup md ((gid % 4294967296) &&& BASE_GID_MASK) = none ∨
      (gid % 4294967296) &&& FLIPPED_BITS_MASK ≠ 0)

theorem convertCells_err (layerName defaultTileId : String)
    (md : List (ℕ × TileMetadata)) (mark : Bool) (ldata : List ℕ) (gid : ℕ)
    (hmem : gid ∈ ldata) (hbad : cellBad md gid) :
    ∀ (index : ℕ) (st : List CTile × List ℕ),
      isErr (convertCells layerName defaultTileId md mark ldata index st) = true := by
  induction ldata with
  | nil => cases hmem
  | cons g rest ih =>
    intro index st
    rcases List.mem_cons.mp hmem with heq | hmem2
    · subst heq
      obtain ⟨hb0, hrest⟩ := hbad
      unfold convertCells
      dsimp only
      rw [if_neg hb0]
      cases hl : mdLookup md ((gid % 4294967296) &&& BASE_GID_MASK) with
      | none => rfl
      | some tm =>
        rcases hrest with hnone | hflag
        · rw [hl] at hnone
          cases hnone
        · dsimp only
          rw [if_pos hflag]
          rfl
    · unfold convertCells
      dsimp only
      by_cases hb0 : (g % 4294967296) &&& BASE_GID_MASK = 0
      · rw [if_pos hb0]
        exact ih hmem2 _ _
      · rw [if_neg hb0]
        cases hl : mdLookup md ((g % 4294967296) &&& BASE_GID_MASK) with
        | none => rfl
        | some tm =>
          dsimp only
          by_cases hflag : (g % 4294967296) &&& FLIPPED_BITS_MASK ≠ 0
          · rw [if_pos hflag]
            rfl
          · rw [if_neg hflag]
            exact ih hmem2 _ _

theorem convertLayerTiles_err_of_cell (layerName : String) (layerWidth layerHeight : ℕ)
    (layerData : List ℕ) (mapWidth : ℕ) (defaultTileId : String)
    (md : List (ℕ × TileMetadata)) (grid : List ℕ) (mark : Bool) (gid : ℕ)
    (hmem : gid ∈ layerData) (hbad : cellBad md gid) :
    isErr (convertLayerTiles layerName layerWidth layerHeight layerData mapWidth
      defaultTileId md grid mark) = true := by
  unfold convertLayerTiles
  by_cases hlen : layerData.length ≠ layerWidth * layerHeight
  · rw [if_pos hlen]
    rfl
  · rw [if_neg hlen]
    have herr := convertCells_err layerName defaultTileId md mark layerData gid
      hmem hbad 0 ([], grid)
    cases hc : convertCells layerName defaultTileId md mark layerData 0 ([], grid) with
    | error e => rfl
    | ok st =>
      rw [hc] at herr
      simp [isErr] at herr

theorem convertLayerTiles_err_of_width (layerName : String) (layerWidth layerHeight : ℕ)
    (layerData : List ℕ) (mapWidth : ℕ) (defaultTileId : String)
    (md : List (ℕ × TileMetadata)) (grid : List ℕ) (mark : Bool)
    (hw : layerWidth ≠ mapWidth) :
    isErr (convertLayerTiles layerName layerWidth layerHeight layerData mapWidth
      defaultTileId md grid mark) = true := by
  unfold convertLayerTiles
  by_cases hlen : layerData.length ≠ layerWidth * layerHeight
  · rw [if_pos hlen]
    rfl
  · rw [if_neg hlen]
    cases hc : convertCells layerName defaultTileId md mark layerData 0 ([], grid) with
    | error e => rfl
    | ok st =>
      dsimp only
      rw [if_pos hw]
      rfl

/-- The declared width of a layer (0 for non-tile layers). -/
def layerWidthOf : RawTiledLayer → ℕ
  | .tilelayer _ w _ _ _ _ => w
  | .otherLayer => 0

theorem processLayer_err (data : TiledMap) (opts : Options)
    (md : List (ℕ × TileMetadata)) (l : RawTiledLayer)
    (hproc : layerProcessed opts l = true)
    (hbad : layerWidthOf l ≠ data.width ∨ ∃ gid ∈ layerDataOf l, cellBad md gid) :
    ∀ (index : ℕ) (st : List CTileLayer × List ℕ),
      isErr (processLayer data opts md index st l) = true := by
  intro index st
  cases l with
  | otherLayer => simp [layerProcessed] at hproc
  | tilelayer name width height ldata visible properties =>
    rw [layerProcessed] at hproc
    rw [Bool.and_eq_true] at hproc
    obtain ⟨hv, hkindmatch⟩ := hproc
    unfold processLayer
    dsimp only
    rw [if_neg (by simp [hv])]
    cases hk : resolveLayerKind name properties opts.layerKindProperty
      ((lookupOverride opts name).bind (·.kind)) with
    | error e => rfl
    | ok k =>
      have hki : k ≠ LayerKind.ignore := by
        intro hcontra
        subst hcontra
        rw [hk] at hkindmatch
        simp at hkindmatch
      dsimp only
      rw [if_neg hki]
      have herr : isErr (convertLayerTiles name width height ldata data.width
          opts.defaultTileId md st.2
          (((lookupOverride opts name).bind (·.collides)).getD
            (k = LayerKind.collision))) = true := by
        rcases hbad with hw | ⟨gid, hgmem, hgbad⟩
        · exact convertLayerTiles_err_of_width name width height ldata data.width
            opts.defaultTileId md st.2 _ (by simpa [layerWidthOf] using hw)
        · exact convertLayerTiles_err_of_cell name width height ldata data.width
            opts.defaultTileId md st.2 _ gid (by simpa [layerDataOf] using hgmem) hgbad
      cases hct : convertLayerTiles name width height ldata data.width
          opts.defaultTileId md st.2
          (((lookupOverride opts name).bind (·.collides)).getD
            (k = LayerKind.collision)) with
      | error e => rfl
      | ok res =>
        rw [hct] at herr
        simp [isErr] at herr

theorem processLayers_err (data : TiledMap) (opts : Options)
    (md : List (ℕ × TileMetadata)) (layers : List RawTiledLayer)
    (l : RawTiledLayer) (hl : l ∈ layers)
    (hbadl : ∀ (index : ℕ) (st : List CTileLayer × List ℕ),
      isErr (processLayer data opts md index st l) = true) :
    ∀ (index : ℕ) (st : List CTileLayer × List ℕ),
      isErr (processLayers data opts md layers index st) = true := by
  induction layers with
  | nil => cases hl
  | cons a rest ih =>
    intro index st
    unfold processLayers
    rcases List.mem_cons.mp hl with heq | hmem
    · subst heq
      cases hp : processLayer data opts md index st l with
      | error e => rfl
      | ok st2 =>
        have := hbadl index st
        rw [hp] at this
        simp [isErr] at this
    · cases hp : processLayer data opts md index st a with
      | error e => rfl
      | ok st2 => exact ih hmem (index + 1) st2

theorem buildTileMetadata_err (tileIdProperty collidesProperty : String)
    (tilesets : List TiledTileset) (ts : TiledTileset) (hts : ts ∈ tilesets)
    (hsrc : sourceTruthy ts = true) :
    ∀ md, isErr (buildTileMetadata tileIdProperty collidesProperty tilesets md) = true := by
  induction tilesets with
  | nil => cases hts
  | cons a rest ih =>
    intro md
    unfold buildTileMetadata
    rcases List.mem_cons.mp hts with heq | hmem
    · subst heq
      unfold processTileset
      rw [if_pos hsrc]
      rfl
    · cases hp : processTileset tileIdProperty collidesProperty a md with
      | error e => rfl
      | ok md2 => exact ih hmem md2

theorem mdLookup_cons_ne (k : ℕ) (v : TileMetadata) (md : List (ℕ × TileMetadata))
    (gid : ℕ) (hk : k ≠ gid) : mdLookup ((k, v) :: md) gid = mdLookup md gid := by
  unfold mdLookup
  rw [List.find?_cons_of_neg _ (by simp [hk])]

theorem processTilesetTiles_lookup_none (firstgid : ℕ)
    (tilesetName tileIdProperty collidesProperty : String) (gid : ℕ)
    (tiles : List TiledTile)
    (hno : ∀ tile ∈ tiles,
      (decide (firstgid + tile.id = gid) && tileHasTruthyId tileIdProperty tile) = false) :
    ∀ (md0 md1 : List (ℕ × TileMetadata)),
      processTilesetTiles firstgid tilesetName tileIdProperty collidesProperty
        tiles md0 = .ok md1 →
      mdLookup md0 gid = none → mdLookup md1 gid = none := by
  induction tiles with
  | nil =>
    intro md0 md1 hok h0
    unfold processTilesetTiles at hok
    cases hok
    exact h0
  | cons tile rest ih =>
    intro md0 md1 hok h0
    have hnorest : ∀ t ∈ rest,
        (decide (firstgid + t.id = gid) && tileHasTruthyId tileIdProperty t) = false :=
      fun t ht => hno t (List.mem_cons_of_mem _ ht)
    unfold processTilesetTiles at hok
    cases hprops : tile.properties with
    | none =>
      rw [hprops] at hok
      exact ih hnorest md0 md1 hok h0
    | some props =>
      rw [hprops] at hok
      dsimp only at hok
      cases hgp : getProperty props tileIdProperty with
      | none =>
        rw [hgp] at hok
        cases hok
      | some v =>
        rw [hgp] at hok
        dsimp only at hok
        by_cases htru : v.truthy = true
        · rw [if_neg (not_not_intro htru)] at hok
          refine ih hnorest _ md1 hok ?_
          have htid : tileHasTruthyId tileIdProperty tile = true := by
            unfold tileHasTruthyId
            rw [hprops]
            dsimp only
            rw [hgp]
            exact htru
          have hkey : firstgid + tile.id ≠ gid := by
            intro hcontra
            have hhead := hno tile (List.mem_cons_self _ _)
            rw [Bool.and_eq_false_iff] at hhead
            rcases hhead with hh | hh
            · simp [hcontra] at hh
            · rw [htid] at hh
              cases hh
          rw [mdLookup_cons_ne _ _ _ _ hkey]
          exact h0
        · rw [if_pos htru] at hok
          cases hok

theorem buildTileMetadata_lookup_none (tileIdProperty collidesProperty : String)
    (gid : ℕ) (tilesets : List TiledTileset)
    (hno : gidHasMapping tileIdProperty tilesets gid = false) :
    ∀ (md0 md : List (ℕ × TileMetadata)),
      buildTileMetadata tileIdProperty collidesProperty tilesets md0 = .ok md →
      mdLookup md0 gid = none → mdLookup md gid = none := by
  induction tilesets with
  | nil =>
    intro md0 md hok h0
    unfold buildTileMetadata at hok
    cases hok
    exact h0
  | cons ts rest ih =>
    intro md0 md hok h0
    rw [gidHasMapping, List.any_cons, Bool.or_eq_false_iff] at hno
    obtain ⟨hnohead, hnorest⟩ := hno
    unfold buildTileMetadata at hok
    cases hpt : processTileset tileIdProperty collidesProperty ts md0 with
    | error e =>
      rw [hpt] at hok
      cases hok
    | ok md1 =>
      rw [hpt] at hok
      refine ih hnorest md1 md hok ?_
      unfold processTileset at hpt
      by_cases hsrc : sourceTruthy ts = true
      · rw [if_pos hsrc] at hpt
        cases hpt
      · rw [if_neg hsrc] at hpt
        cases hts : ts.tiles with
        | none =>
          rw [hts] at hpt
          cases hpt
          exact h0
        | some tiles =>
          rw [hts] at hpt
          have hno2 : ∀ tile ∈ tiles,
              (decide (ts.firstgid + tile.id = gid) &&
                tileHasTruthyId tileIdProperty tile) = false := by
            rw [List.any_eq_false] at hnohead
            intro t ht
            have := hnohead t (by rw [tilesOf, hts]; exact ht)
            revert this
            cases decide (ts.firstgid + t.id = gid) &&
              tileHasTruthyId tileIdProperty t <;> simp
          exact processTilesetTiles_lookup_none ts.firstgid ts.name tileIdProperty
            collidesProperty gid tiles hno2 md0 md1 hpt h0

/-- C5 amended: `fromJSON` fails with an explicit error (constructing no
map) whenever the tile cells are not square, some tileset is externally
referenced, some processed layer references a flagged gid with non-zero
base tile index, some processed layer's declared width disagrees with the
map width, or some processed layer references a non-zero base gid with no
kind-mapping metadata. -/
theorem fromJSON_rejects (data : TiledMap) (opts : Options)
    (h : condNonSquare data = true ∨ condExternalTileset data = true ∨
      condFlippedBase opts data = true ∨ condWidthMismatch opts data = true ∨
      condMissingMeta opts data = true) :
    isErr (fromJSON data opts) = true := by
  unfold fromJSON fromTiled
  by_cases hsq : data.tilewidth ≠ data.tileheight
  · rw [if_pos hsq]
    rfl
  · rw [if_neg hsq]
    cases hmd : buildTileMetadata opts.tileIdProperty opts.collidesProperty
        data.tilesets [] with
    | error e => rfl
    | ok md =>
      dsimp only
      have hlayer : ∃ l ∈ data.layers, layerProcessed opts l = true ∧
          (layerWidthOf l ≠ data.width ∨ ∃ gid ∈ layerDataOf l, cellBad md gid) := by
        rcases h with h1 | h2 | h3 | h4 | h5
        · exact absurd (bne_iff_ne.mp h1) hsq
        · rw [condExternalTileset, List.any_eq_true] at h2
          obtain ⟨ts, hts, hsrc⟩ := h2
          have := buildTileMetadata_err opts.tileIdProperty opts.collidesProperty
            data.tilesets ts hts hsrc []
          rw [hmd] at this
          simp [isErr] at this
        · rw [condFlippedBase, List.any_eq_true] at h3
          obtain ⟨l, hl, hprop⟩ := h3
          rw [Bool.and_eq_true, List.any_eq_true] at hprop
          obtain ⟨hproc, gid, hgid, hflag⟩ := hprop
          rw [gidFlaggedNonzero, Bool.and_eq_true, gidFlagged] at hflag
          exact ⟨l, hl, hproc, Or.inr ⟨gid, hgid,
            bne_iff_ne.mp hflag.2, Or.inr (bne_iff_ne.mp hflag.1)⟩⟩
        · rw [condWidthMismatch, List.any_eq_true] at h4
          obtain ⟨l, hl, hprop⟩ := h4
          rw [Bool.and_eq_true] at hprop
          obtain ⟨hproc, hw⟩ := hprop
          refine ⟨l, hl, hproc, Or.inl ?_⟩
          cases l with
          | otherLayer => simp at hw
          | tilelayer name w ht d v ps => exact bne_iff_ne.mp hw
        · rw [condMissingMeta, List.any_eq_true] at h5
          obtain ⟨l, hl, hprop⟩ := h5
          rw [Bool.and_eq_true, List.any_eq_true] at hprop
          obtain ⟨hproc, gid, hgid, hmiss⟩ := hprop
          rw [Bool.and_eq_true] at hmiss
          have hnomap : gidHasMapping opts.tileIdProperty data.tilesets
              ((gid % 4294967296) &&& BASE_GID_MASK) = false := by
            have := hmiss.2
            revert this
            cases gidHasMapping opts.tileIdProperty data.tilesets
              ((gid % 4294967296) &&& BASE_GID_MASK) <;> simp
          have hnone : mdLookup md ((gid % 4294967296) &&& BASE_GID_MASK) = none :=
            buildTileMetadata_lookup_none opts.tileIdProperty opts.collidesProperty
              ((gid % 4294967296) &&& BASE_GID_MASK) data.tilesets hnomap [] md hmd rfl
          exact ⟨l, hl, hproc, Or.inr ⟨gid, hgid, bne_iff_ne.mp hmiss.1,
            Or.inl hnone⟩⟩
      obtain ⟨l, hlmem, hlproc, hlbad⟩ := hlayer
      have herr := processLayers_err data opts md data.layers l hlmem
        (processLayer_err data opts md l hlproc hlbad) 0
        ([], List.replicate (data.width * data.height) 0)
      cases hpl : processLayers data opts md data.layers 0
          ([], List.replicate (data.width * data.height) 0) with
      | error e => rfl
      | ok st =>
        rw [hpl] at herr
        simp [isErr] at herr

end TiledConverter

/-- Converter options used in the C5 concrete inputs. -/
def exConvOptions : TiledConverter.Options := { defaultTileId := "grass" }

/-- C5 counterexample input: a well-formed 2×2 map whose ground layer's
first cell is the bare flip bit `0x80000000` — a gid carrying flag bits
whose base tile index is 0. -/
def exFlagMap : TiledConverter.TiledMap :=
  { width := 2, height := 2, tilewidth := 16, tileheight := 16,
    layers := [.tilelayer "ground" 2 2 [2147483648, 0, 0, 0] true none],
    tilesets := [⟨1, "terrain", some [⟨0, some [⟨"tileId", .pstr "water"⟩]⟩], none⟩] }

/-- C5 counterexample: `exFlagMap` contains a referenced gid carrying
flip/rotation flag bits (the claim's rejection condition holds), yet
`fromJSON` accepts the map — the flag bits on a zero base gid are silently
dropped and the cell becomes the default tile. -/
theorem fromJSON_accepts_flagged_zero_gid :
    TiledConverter.condFlipped exConvOptions exFlagMap = true ∧
      TiledConverter.isErr (TiledConverter.fromJSON exFlagMap exConvOptions) = false := by
  constructor
  · decide
  · decide

/-- C5 concrete rejected input: an externally referenced tileset. -/
def exExternalMap : TiledConverter.TiledMap :=
  { width := 1, height := 1, tilewidth := 16, tileheight := 16,
    layers := [.tilelayer "ground" 1 1 [0] true none],
    tilesets := [⟨1, "terrain", none, some "terrain.tsx"⟩] }

/-- Witness for the amended C5 theorem at a concrete map with an external
tileset reference. -/
theorem fromJSON_rejects_witness :
    TiledConverter.isErr (TiledConverter.fromJSON exExternalMap exConvOptions) = true :=
  TiledConverter.fromJSON_rejects exExternalMap exConvOptions (Or.inr (Or.inl (by decide)))

end Wayfare
